import Mathlib

/-!
Verification of the admin-session and credential logic of the Prefiction
backend (server.js).  The JavaScript source is embedded shallowly:

* the process-wide `SESSIONS` Map is an association list `SessionStore`
  with `mapGet` / `mapSet` / `mapDelete` / `mapHas` mirroring the
  JavaScript `Map` API (`clear()` is the empty list);
* `Date.now()` becomes an explicit `now : Nat` argument;
* request-supplied strings that may be `undefined` in JavaScript are
  modelled as `String` with `""` standing for the falsy absent value
  (in every guarded position the source only tests truthiness, under
  which `undefined` and `""` behave identically);
* the datastore is modelled by an explicit `DbLookup` outcome
  (unreachable / lookup throws / record found / no record) and, for the
  change-password handler, by flags on a `ServerState` describing
  whether the connection is up and whether the write would throw;
* handlers that mutate `SESSIONS` or `process.env` return the new state
  explicitly.
-/

/-- Session tokens are hex strings produced by crypto.randomBytes. -/
abbrev Token := String

/-- One entry of the SESSIONS map: `{ createdAt: now, expires }`
(server.js line 154). -/
structure Session where
  createdAt : Nat
  expires : Nat
deriving DecidableEq

/-- The in-memory `SESSIONS` Map (server.js line 147), as an
association list from token to session entry. -/
abbrev SessionStore := List (Token × Session)

/-- JavaScript `SESSIONS.get(id)`. -/
def mapGet : SessionStore → Token → Option Session
  | [], _ => none
  | (k, s) :: rest, t => if k = t then some s else mapGet rest t

/-- JavaScript `SESSIONS.delete(id)`: remove the entry with the key, if
present. -/
def mapDelete : SessionStore → Token → SessionStore
  | [], _ => []
  | (k, s) :: rest, t =>
      if k = t then mapDelete rest t else (k, s) :: mapDelete rest t

/-- JavaScript `SESSIONS.set(id, s)`: bind the key to the entry. -/
def mapSet (m : SessionStore) (t : Token) (s : Session) : SessionStore :=
  (t, s) :: mapDelete m t

/-- JavaScript `SESSIONS.has(id)`. -/
def mapHas (m : SessionStore) (t : Token) : Bool :=
  (mapGet m t).isSome

/-- `const SESSION_TTL_MS = 1000 * 60 * 60` (server.js line 148). -/
def SESSION_TTL_MS : Nat := 1000 * 60 * 60

/-- `createSession()` (server.js lines 150-156).  The random token is an
explicit argument `id`; the function stores
`{ createdAt: now, expires: now + SESSION_TTL_MS }` and returns the id. -/
def createSession (id : Token) (now : Nat) (m : SessionStore) :
    Token × SessionStore :=
  (id, mapSet m id { createdAt := now, expires := now + SESSION_TTL_MS })

/-- `isSessionValid(id)` (server.js lines 158-167).  Returns the boolean
result together with the possibly-mutated store (the lazy-expiry branch
deletes the entry).  `!id` is the emptiness test, `Date.now() > s.expires`
is `s.expires < now`. -/
def isSessionValid (now : Nat) (id : Token) (m : SessionStore) :
    Bool × SessionStore :=
  if id = "" then (false, m)
  else
    match mapGet m id with
    | none => (false, m)
    | some s => if s.expires < now then (false, mapDelete m id) else (true, m)

/-- Whitespace trimming on the character list, both ends. -/
def trimChars (l : List Char) : List Char :=
  (((l.dropWhile Char.isWhitespace).reverse).dropWhile Char.isWhitespace).reverse

/-- JavaScript `s.trim()`. -/
def jsTrim (s : String) : String := ⟨trimChars s.data⟩

/-- Splitting a character list at every occurrence of the separator
(the accumulator holds the current piece reversed). -/
def splitCharsOn (sep : Char) : List Char → List Char → List (List Char)
  | [], acc => [acc.reverse]
  | c :: cs, acc =>
      if c = sep then acc.reverse :: splitCharsOn sep cs []
      else splitCharsOn sep cs (c :: acc)

/-- JavaScript `s.split(sep)` for a one-character separator (the source
only splits on ';' and '='). -/
def jsSplit (sep : Char) (s : String) : List String :=
  (splitCharsOn sep s.data []).map (fun l => ⟨l⟩)

/-- JavaScript `s.startsWith(p)` on character lists (string, then
pattern). -/
def startsWithChars : List Char → List Char → Bool
  | _, [] => true
  | [], _ :: _ => false
  | c :: cs, p :: ps => c = p && startsWithChars cs ps

/-- Extraction of the session id from the Cookie header
(server.js lines 175-178 and 328-331): split on ';', trim each part,
find the first part starting with "admin_sid=", take what follows the
first '='.  `none` models the `find` miss (handler replies 401 / skips). -/
def parseSid (cookieHeader : String) : Option Token :=
  match ((jsSplit ';' cookieHeader).map jsTrim).find?
      (fun c => startsWithChars c.data "admin_sid=".data) with
  | none => none
  | some c => some ((jsSplit '=' c).getD 1 "")

/-- Outcome of the admin auth gate. -/
inductive AuthResult
  | allowed
  | unauthorized
deriving DecidableEq

/-- `requireAdminAuth(req, res, next)` (server.js lines 169-185).
`adminKey` is the module constant `ADMIN_KEY`; `key` is the
`x-api-key` header ("" when absent); `cookieHeader` is the Cookie
header ("" when absent).  On the session path with a valid sid the
handler refreshes `expires` to `now + SESSION_TTL_MS` and re-`set`s the
entry.  The inner `none` branch of the refresh is unreachable because a
valid session is present in the store. -/
def requireAdminAuth (adminKey : String) (now : Nat)
    (key cookieHeader : String) (m : SessionStore) :
    AuthResult × SessionStore :=
  if key ≠ "" ∧ key = adminKey then (.allowed, m)
  else
    match parseSid cookieHeader with
    | none => (.unauthorized, m)
    | some sid =>
      match isSessionValid now sid m with
      | (false, m1) => (.unauthorized, m1)
      | (true, m1) =>
        match mapGet m1 sid with
        | some sess =>
            (.allowed, mapSet m1 sid { sess with expires := now + SESSION_TTL_MS })
        | none => (.allowed, m1)

/-- `POST /admin/logout` (server.js lines 326-340): look for the
admin_sid cookie; when a sid was found and `SESSIONS.has(sid)` holds,
delete it; always answer `{ok: true}` (modelled by the Bool `true`). -/
def logoutHandler (cookieHeader : String) (m : SessionStore) :
    Bool × SessionStore :=
  match parseSid cookieHeader with
  | none => (true, m)
  | some sid =>
      if sid ≠ "" ∧ mapHas m sid then (true, mapDelete m sid) else (true, m)

/-- The hardcoded fallback of `getAdminPassword`
(server.js line 245). -/
def DEFAULT_ADMIN_PASSWORD : String := "57d3e160e7b006b0359fa54440799a6b"

/-- JavaScript `process.env.X || d`: an unset or empty environment
variable falls back to the default. -/
def envOr (v : Option String) (d : String) : String :=
  match v with
  | some s => if s = "" then d else s
  | none => d

/-- Outcome of the `Admin.findOne({key: admin_settings})` lookup as seen
by `getAdminPassword`: the connection may be down (`readyState !== 1`),
the awaited lookup may throw, or it resolves to a record or to null. -/
inductive DbLookup
  | unreachable
  | throws
  | found (password : String)
  | notFound
deriving DecidableEq

/-- `getAdminPassword()` (server.js lines 233-246).  Returns the stored
password when connected and the record has a truthy password; in every
other case (connection down, lookup threw and was caught, no record,
falsy password field) returns
`process.env.ADMIN_PANEL_PASSWORD || DEFAULT_ADMIN_PASSWORD`.
It is a total function: no branch signals an error to the caller. -/
def getAdminPassword (db : DbLookup) (envPassword : Option String) : String :=
  match db with
  | .found password =>
      if password ≠ "" then password
      else envOr envPassword DEFAULT_ADMIN_PASSWORD
  | _ => envOr envPassword DEFAULT_ADMIN_PASSWORD

/-- The process-wide state touched by the change-password handler:
`process.env.ADMIN_PANEL_PASSWORD`, the persisted singleton Admin
record (its password, `none` when absent), whether
`mongoose.connection.readyState === 1`, whether the `findOne` lookup
would throw, whether the `findOneAndUpdate` write would throw, and the
`SESSIONS` map. -/
structure ServerState where
  envPassword : Option String
  dbRecord : Option String
  dbConnected : Bool
  lookupThrows : Bool
  dbWriteFails : Bool
  sessions : SessionStore
deriving DecidableEq

/-- The datastore outcome `getAdminPassword` observes in a given server
state. -/
def ServerState.dbLookup (st : ServerState) : DbLookup :=
  if st.dbConnected then
    if st.lookupThrows then .throws
    else
      match st.dbRecord with
      | some p => .found p
      | none => .notFound
  else .unreachable

/-- Responses of `POST /admin/change-password`. -/
inductive CPResult
  | missingFields
  | wrongCurrent
  | tooShort
  | ok
deriving DecidableEq

/-- `POST /admin/change-password` body (server.js lines 280-323), after
`requireAdminAuth` has passed.  Validation: both fields truthy (400),
`currentPassword` equal to the resolved password (401), new length at
least 6 (400).  On success the handler first overwrites
`process.env.ADMIN_PANEL_PASSWORD`, then, only when connected, attempts
the upsert — a write failure is caught and merely logged — and finally
clears `SESSIONS` and replies ok. -/
def changePassword (st : ServerState) (currentPassword newPassword : String) :
    CPResult × ServerState :=
  let expectedPassword := getAdminPassword st.dbLookup st.envPassword
  if currentPassword = "" ∨ newPassword = "" then (.missingFields, st)
  else if currentPassword ≠ expectedPassword then (.wrongCurrent, st)
  else if newPassword.length < 6 then (.tooShort, st)
  else
    let st1 := { st with envPassword := some newPassword }
    let st2 :=
      if st1.dbConnected then
        if st1.dbWriteFails then st1
        else { st1 with dbRecord := some newPassword }
      else st1
    (.ok, { st2 with sessions := [] })

/-- A stored contact submission as built by the handler (identifier and
timestamps are generated by the datastore and are outside the model). -/
structure SubmissionDoc where
  name : String
  company : String
  email : String
  message : String
deriving DecidableEq

/-- Responses of `POST /api/contact`. -/
inductive ContactResult
  | validationError
  | created (doc : SubmissionDoc)
  | dbError
deriving DecidableEq

/-- `POST /api/contact` (server.js lines 122-142).  The guard tests the
raw, untrimmed fields for truthiness; the persisted document carries the
trimmed fields (`company ? company.trim() : ''` and the same for
message); `saveOk` tells whether `submission.save()` succeeds (500 when
not). -/
def contactHandler (name email company message : String) (saveOk : Bool) :
    ContactResult :=
  if email = "" ∨ name = "" then .validationError
  else
    let doc : SubmissionDoc :=
      { name := jsTrim name
        company := if company = "" then "" else jsTrim company
        email := jsTrim email
        message := if message = "" then "" else jsTrim message }
    if saveOk then .created doc else .dbError

/-- Environment variables read at startup. -/
structure EnvConfig where
  MONGODB_URI : Option String
  ADMIN_API_KEY : Option String
  ADMIN_PANEL_PASSWORD : Option String
deriving DecidableEq

/-- The configuration a running process operates with. -/
structure RunningConfig where
  mongoUri : String
  adminKey : String
  fallbackPassword : String
deriving DecidableEq

/-- Startup configuration resolution (server.js lines 16-20, 145, 245):
the process exits when `MONGODB_URI` is falsy (`none` models
`process.exit(1)`); otherwise it runs with
`ADMIN_KEY = process.env.ADMIN_API_KEY || dev-secret` and the
panel-password fallback `process.env.ADMIN_PANEL_PASSWORD || default`. -/
def startup (env : EnvConfig) : Option RunningConfig :=
  match env.MONGODB_URI with
  | none => none
  | some u =>
      if u = "" then none
      else
        some { mongoUri := u
               adminKey := envOr env.ADMIN_API_KEY "dev-secret"
               fallbackPassword :=
                 envOr env.ADMIN_PANEL_PASSWORD DEFAULT_ADMIN_PASSWORD }

/-- The session-store operations available once a token exists, other
than a fresh login (`createSession`): a validity check, the auth gate
(which performs the sliding-refresh touch), logout, and the global
clear performed by a successful password change. -/
inductive SessionOp
  | check (now : Nat) (t : Token)
  | auth (adminKey : String) (now : Nat) (key cookieHeader : String)
  | logout (cookieHeader : String)
  | clearAll

/-- Effect of one `SessionOp` on the `SESSIONS` map. -/
def stepOp (m : SessionStore) : SessionOp → SessionStore
  | .check now t => (isSessionValid now t m).2
  | .auth ak now key ch => (requireAdminAuth ak now key ch m).2
  | .logout ch => (logoutHandler ch m).2
  | .clearAll => []

/-! ### Map lemmas -/

/-- Looking up after a delete: the deleted key is gone, others are
untouched. -/
theorem mapGet_mapDelete (m : SessionStore) (t u : Token) :
    mapGet (mapDelete m t) u = if t = u then none else mapGet m u := by
  induction m with
  | nil => simp [mapDelete, mapGet]
  | cons p rest ih =>
    obtain ⟨k, s⟩ := p
    by_cases hkt : k = t
    · subst hkt
      by_cases hku : k = u
      · subst hku
        simp [mapDelete, mapGet, ih]
      · simp [mapDelete, mapGet, hku, ih]
    · by_cases hku : k = u
      · subst hku
        have : ¬ t = k := fun h => hkt h.symm
        simp [mapDelete, mapGet, hkt, this, ih]
      · simp [mapDelete, mapGet, hkt, hku, ih]

/-- Looking up after a set: the bound key yields the new entry, others
are untouched. -/
theorem mapGet_mapSet (m : SessionStore) (t : Token) (s : Session) (u : Token) :
    mapGet (mapSet m t s) u = if t = u then some s else mapGet m u := by
  by_cases htu : t = u
  · subst htu
    simp [mapSet, mapGet]
  · simp [mapSet, mapGet, htu, mapGet_mapDelete]

/-- A valid check mutates nothing and certifies presence with an
unexpired entry. -/
theorem isSessionValid_true (now : Nat) (id : Token) (m : SessionStore)
    (h : (isSessionValid now id m).1 = true) :
    (isSessionValid now id m).2 = m ∧ id ≠ "" ∧
      ∃ s, mapGet m id = some s ∧ now ≤ s.expires := by
  by_cases hid : id = ""
  · simp [isSessionValid, hid] at h
  · cases hg : mapGet m id with
    | none => simp [isSessionValid, hid, hg] at h
    | some s =>
      by_cases hex : s.expires < now
      · simp [isSessionValid, hid, hg, hex] at h
      · refine ⟨?_, hid, s, rfl, Nat.le_of_not_lt hex⟩
        simp [isSessionValid, hid, hg, hex]

/-- A check never adds entries: an absent token stays absent. -/
theorem isSessionValid_preserves_none (now : Nat) (id : Token)
    (m : SessionStore) (t : Token) (h : mapGet m t = none) :
    mapGet (isSessionValid now id m).2 t = none := by
  by_cases hid : id = ""
  · simpa [isSessionValid, hid] using h
  · cases hg : mapGet m id with
    | none => simpa [isSessionValid, hid, hg] using h
    | some s =>
      by_cases hex : s.expires < now
      · simp [isSessionValid, hid, hg, hex, mapGet_mapDelete]
        intro _; exact h
      · simpa [isSessionValid, hid, hg, hex] using h

/-! ### C2 — isSessionValid -/

/-- C2 counterexample: the claim demands that a session be valid only
when now is strictly before expiresAt, and that now = expiresAt evict
the entry and answer false.  The code tests `Date.now() > s.expires`,
so at now = expiresAt = 100 it answers true and leaves the entry in
place. -/
theorem C2_counterexample :
    (isSessionValid 100 "tok" [("tok", { createdAt := 0, expires := 100 })]).1
        = true ∧
    (isSessionValid 100 "tok" [("tok", { createdAt := 0, expires := 100 })]).2
        = [("tok", { createdAt := 0, expires := 100 })] :=
  ⟨rfl, rfl⟩

/-- C2 (amended): `isSessionValid` answers true iff the token is
non-empty, present in the store, and now is at or before (not strictly
before) the entry's expiresAt; it answers false without mutation for an
empty or absent token; and when the entry exists with expiresAt
strictly before now it evicts the entry and answers false. -/
theorem C2_session_validity (now : Nat) (t : Token) (m : SessionStore) :
    ((isSessionValid now t m).1 = true ↔
      t ≠ "" ∧ ∃ s, mapGet m t = some s ∧ now ≤ s.expires) ∧
    (t = "" → isSessionValid now t m = (false, m)) ∧
    (mapGet m t = none → isSessionValid now t m = (false, m)) ∧
    (∀ s, t ≠ "" → mapGet m t = some s → s.expires < now →
      isSessionValid now t m = (false, mapDelete m t)) := by
  refine ⟨⟨?_, ?_⟩, ?_, ?_, ?_⟩
  · intro h
    obtain ⟨-, hid, s, hg, hle⟩ := isSessionValid_true now t m h
    exact ⟨hid, s, hg, hle⟩
  · rintro ⟨hid, s, hg, hle⟩
    have hnlt : ¬ s.expires < now := Nat.not_lt.mpr hle
    simp [isSessionValid, hid, hg, hnlt]
  · intro h
    simp [isSessionValid, h]
  · intro h
    by_cases hid : t = ""
    · simp [isSessionValid, hid]
    · simp [isSessionValid, hid, h]
  · intro s hid hg hlt
    simp [isSessionValid, hid, hg, hlt]

/-- C2 amended-claim witness at a concrete unexpired session. -/
theorem C2_witness :
    (isSessionValid 50 "tok" [("tok", { createdAt := 0, expires := 100 })]).1
      = true :=
  (C2_session_validity 50 "tok" [("tok", { createdAt := 0, expires := 100 })]).1.mpr
    ⟨by decide, { createdAt := 0, expires := 100 }, rfl, by decide⟩

/-! ### C7 — getAdminPassword -/

/-- C7: `getAdminPassword` is total (it returns a `String`, never an
error): with the datastore reachable and the singleton record present
(its password non-empty, as the Admin schema requires) it returns the
record's password; when the datastore is unreachable, the lookup
throws, or no record exists, it returns the configured fallback
`ADMIN_PANEL_PASSWORD || DEFAULT_ADMIN_PASSWORD`. -/
theorem C7_currentPassword_fallback (db : DbLookup) (envP : Option String) :
    (∀ p, db = .found p → p ≠ "" → getAdminPassword db envP = p) ∧
    ((db = .unreachable ∨ db = .throws ∨ db = .notFound) →
      getAdminPassword db envP = envOr envP DEFAULT_ADMIN_PASSWORD) := by
  constructor
  · rintro p rfl hp
    simp [getAdminPassword, hp]
  · rintro (rfl | rfl | rfl) <;> rfl

/-- C7 witness: a found record wins; an unreachable datastore degrades
to the hardcoded default when the environment variable is unset. -/
theorem C7_witness :
    getAdminPassword (.found "pw12") none = "pw12" ∧
    getAdminPassword .unreachable none = DEFAULT_ADMIN_PASSWORD :=
  ⟨(C7_currentPassword_fallback (.found "pw12") none).1 "pw12" rfl (by decide),
   (C7_currentPassword_fallback .unreachable none).2 (Or.inl rfl)⟩

/-! ### C3 — POST /api/contact -/

/-- C3 counterexample: the claim requires a 400 ValidationError exactly
when name or email is empty after trimming.  A whitespace-only name
trims to the empty string, yet the handler's guard tests the untrimmed
value and proceeds to persist a record whose name is empty. -/
theorem C3_counterexample :
    jsTrim " " = "" ∧
    contactHandler " " "a@b.com" "" "" true =
      .created { name := "", company := "", email := "a@b.com", message := "" } :=
  ⟨rfl, rfl⟩

/-- C3 (amended): the contact handler rejects with ValidationError
(HTTP 400, nothing persisted) iff name or email is empty or absent
before trimming; otherwise it builds the record from the trimmed
fields and persists it (500 when the save fails). -/
theorem C3_contact_validation (name email company message : String)
    (saveOk : Bool) :
    (contactHandler name email company message saveOk = .validationError ↔
      email = "" ∨ name = "") ∧
    (email ≠ "" → name ≠ "" →
      contactHandler name email company message saveOk =
        if saveOk then
          .created { name := jsTrim name
                     company := if company = "" then "" else jsTrim company
                     email := jsTrim email
                     message := if message = "" then "" else jsTrim message }
        else .dbError) := by
  constructor
  · constructor
    · intro h
      by_cases hv : email = "" ∨ name = ""
      · exact hv
      · exfalso
        simp only [contactHandler, if_neg hv] at h
        split at h <;> cases h
    · intro hv
      simp only [contactHandler, if_pos hv]
  · intro he hn
    have hv : ¬ (email = "" ∨ name = "") := by
      rintro (h | h)
      · exact he h
      · exact hn h
    simp only [contactHandler, if_neg hv]

/-- C3 amended-claim witness: a submission with untrimmed-but-nonempty
fields is created with the trimmed values. -/
theorem C3_witness :
    contactHandler "Al " "a@b.com" "" " hi " true =
      .created { name := "Al", company := "", email := "a@b.com",
                 message := "hi" } :=
  ((C3_contact_validation "Al " "a@b.com" "" " hi " true).2
    (by decide) (by decide)).trans rfl

/-! ### C9 — startup configuration -/

/-- C9 counterexample: the claim says the admin API key and the
fallback panel password are required configuration.  With only the
datastore connection string provided, the process starts and operates
with the built-in defaults. -/
theorem C9_counterexample :
    startup { MONGODB_URI := some "mongodb://localhost/prefiction",
              ADMIN_API_KEY := none, ADMIN_PANEL_PASSWORD := none } =
      some { mongoUri := "mongodb://localhost/prefiction",
             adminKey := "dev-secret",
             fallbackPassword := DEFAULT_ADMIN_PASSWORD } := rfl

/-- C9 (amended): the process refuses to start iff the datastore
connection string is absent or empty; the admin API key and the
fallback panel password are optional, defaulting to the constant
"dev-secret" and the hardcoded fallback password when not provided. -/
theorem C9_startup_requirements (env : EnvConfig) :
    (startup env = none ↔
      env.MONGODB_URI = none ∨ env.MONGODB_URI = some "") ∧
    (∀ cfg, startup env = some cfg →
      cfg.adminKey = envOr env.ADMIN_API_KEY "dev-secret" ∧
      cfg.fallbackPassword =
        envOr env.ADMIN_PANEL_PASSWORD DEFAULT_ADMIN_PASSWORD) := by
  obtain ⟨u, k, p⟩ := env
  cases u with
  | none => simp [startup]
  | some u =>
    by_cases hu : u = ""
    · subst hu
      simp [startup]
    · constructor
      · simp [startup, hu]
      · intro cfg hcfg
        simp only [startup, if_neg hu] at hcfg
        injection hcfg with h
        subst h
        exact ⟨rfl, rfl⟩

/-- C9 amended-claim witness at a concrete environment holding only the
connection string. -/
theorem C9_witness :
    ({ mongoUri := "mongodb://h/db", adminKey := "dev-secret",
       fallbackPassword := DEFAULT_ADMIN_PASSWORD } : RunningConfig).adminKey
      = envOr none "dev-secret" :=
  ((C9_startup_requirements
      { MONGODB_URI := some "mongodb://h/db", ADMIN_API_KEY := none,
        ADMIN_PANEL_PASSWORD := none }).2
    { mongoUri := "mongodb://h/db", adminKey := "dev-secret",
      fallbackPassword := DEFAULT_ADMIN_PASSWORD } rfl).1

/-! ### Auth gate case lemmas -/

/-- A check on an absent token is a no-op answering false. -/
theorem isSessionValid_of_none (now : Nat) (t : Token) (m : SessionStore)
    (h : mapGet m t = none) : isSessionValid now t m = (false, m) := by
  by_cases hid : t = ""
  · simp [isSessionValid, hid]
  · simp [isSessionValid, hid, h]

/-- Key path of the gate: a non-empty matching x-api-key is allowed and
the store is untouched. -/
theorem requireAdminAuth_key (adminKey : String) (now : Nat)
    (key cookieHeader : String) (m : SessionStore)
    (hk : key ≠ "" ∧ key = adminKey) :
    requireAdminAuth adminKey now key cookieHeader m = (.allowed, m) := by
  rw [requireAdminAuth, if_pos hk]

/-- No admin_sid cookie part: unauthorized, store untouched. -/
theorem requireAdminAuth_noCookie (adminKey : String) (now : Nat)
    (key cookieHeader : String) (m : SessionStore)
    (hk : ¬ (key ≠ "" ∧ key = adminKey))
    (hp : parseSid cookieHeader = none) :
    requireAdminAuth adminKey now key cookieHeader m = (.unauthorized, m) := by
  rw [requireAdminAuth, if_neg hk, hp]

/-- Invalid session path: unauthorized, the store is whatever the
validity check (with its lazy eviction) left behind. -/
theorem requireAdminAuth_invalid (adminKey : String) (now : Nat)
    (key cookieHeader : String) (m : SessionStore) (sid : Token)
    (hk : ¬ (key ≠ "" ∧ key = adminKey))
    (hp : parseSid cookieHeader = some sid)
    (hv : (isSessionValid now sid m).1 = false) :
    requireAdminAuth adminKey now key cookieHeader m =
      (.unauthorized, (isSessionValid now sid m).2) := by
  rcases hvm : isSessionValid now sid m with ⟨b, m1⟩
  rw [hvm] at hv
  simp only at hv
  subst hv
  simp only [requireAdminAuth, if_neg hk, hp, hvm]

/-- Valid session path: allowed, and the entry is re-set with expiry
refreshed to now + TTL. -/
theorem requireAdminAuth_valid (adminKey : String) (now : Nat)
    (key cookieHeader : String) (m : SessionStore) (sid : Token) (s : Session)
    (hk : ¬ (key ≠ "" ∧ key = adminKey))
    (hp : parseSid cookieHeader = some sid)
    (hv : (isSessionValid now sid m).1 = true)
    (hg : mapGet m sid = some s) :
    requireAdminAuth adminKey now key cookieHeader m =
      (.allowed, mapSet m sid { s with expires := now + SESSION_TTL_MS }) := by
  obtain ⟨hsnd, -, -⟩ := isSessionValid_true now sid m hv
  have hpair : isSessionValid now sid m = (true, m) := Prod.ext hv hsnd
  simp only [requireAdminAuth, if_neg hk, hp, hpair, hg]

/-! ### C4 — requireAdminAuth -/

/-- C4: the gate allows iff the presented key is non-empty and equal to
the configured admin key, or the cookie carries a session id passing
`isSessionValid`; on the session path the stored entry's expiry is
extended to now + TTL (sliding refresh); in every other case it denies
with unauthorized. -/
theorem C4_authorize (adminKey : String) (now : Nat)
    (key cookieHeader : String) (m : SessionStore) :
    ((requireAdminAuth adminKey now key cookieHeader m).1 = .allowed ↔
      (key ≠ "" ∧ key = adminKey) ∨
      (∃ sid, parseSid cookieHeader = some sid ∧
        (isSessionValid now sid m).1 = true)) ∧
    (¬ (key ≠ "" ∧ key = adminKey) →
      ∀ sid, parseSid cookieHeader = some sid →
        (isSessionValid now sid m).1 = true →
        ∀ s, mapGet m sid = some s →
          (requireAdminAuth adminKey now key cookieHeader m).2 =
            mapSet m sid { s with expires := now + SESSION_TTL_MS }) := by
  constructor
  · constructor
    · intro hres
      by_cases hk : key ≠ "" ∧ key = adminKey
      · exact Or.inl hk
      · cases hp : parseSid cookieHeader with
        | none =>
          rw [requireAdminAuth_noCookie adminKey now key cookieHeader m hk hp]
            at hres
          cases hres
        | some sid =>
          cases hb : (isSessionValid now sid m).1 with
          | false =>
            rw [requireAdminAuth_invalid adminKey now key cookieHeader m sid
              hk hp hb] at hres
            cases hres
          | true => exact Or.inr ⟨sid, rfl, hb⟩
    · intro hcase
      by_cases hk : key ≠ "" ∧ key = adminKey
      · rw [requireAdminAuth_key adminKey now key cookieHeader m hk]
      · rcases hcase with hk0 | ⟨sid, hp, hv⟩
        · exact absurd hk0 hk
        · obtain ⟨-, -, s, hg, -⟩ := isSessionValid_true now sid m hv
          rw [requireAdminAuth_valid adminKey now key cookieHeader m sid s
            hk hp hv hg]
  · intro hk sid hp hv s hg
    rw [requireAdminAuth_valid adminKey now key cookieHeader m sid s hk hp hv hg]

/-- C4 witness: the key path at a concrete matching key, and the
session path's refresh at a concrete valid session. -/
theorem C4_witness :
    (requireAdminAuth "secret" 0 "secret" "" []).1 = .allowed ∧
    (requireAdminAuth "secret" 10 "" "admin_sid=tok"
        [("tok", { createdAt := 0, expires := 50 })]).2 =
      mapSet [("tok", { createdAt := 0, expires := 50 })] "tok"
        { createdAt := 0, expires := 10 + SESSION_TTL_MS } :=
  ⟨(C4_authorize "secret" 0 "secret" "" []).1.mpr (Or.inl ⟨by decide, rfl⟩),
   (C4_authorize "secret" 10 "" "admin_sid=tok"
      [("tok", { createdAt := 0, expires := 50 })]).2
     (by decide) "tok" (by decide) (by decide)
     { createdAt := 0, expires := 50 } rfl⟩

/-! ### C8 — logout / revoke -/

/-- C8: logout always answers ok; it is idempotent (repeating it leaves
the store exactly where the first call left it, and revoking an absent
or already-removed token is not an error); and after a logout the
revoked session id never validates, at any time. -/
theorem C8_logout_revoke (cookieHeader : String) (m : SessionStore) :
    (logoutHandler cookieHeader m).1 = true ∧
    (logoutHandler cookieHeader (logoutHandler cookieHeader m).2).2 =
      (logoutHandler cookieHeader m).2 ∧
    (∀ sid, parseSid cookieHeader = some sid →
      ∀ now, (isSessionValid now sid (logoutHandler cookieHeader m).2).1 = false) := by
  cases hp : parseSid cookieHeader with
  | none =>
    refine ⟨?_, ?_, ?_⟩
    · simp [logoutHandler, hp]
    · simp [logoutHandler, hp]
    · intro sid hsid
      cases hsid
  | some sid =>
    by_cases hsid : sid = ""
    · subst hsid
      have hres : logoutHandler cookieHeader m = (true, m) := by
        simp [logoutHandler, hp]
      refine ⟨?_, ?_, ?_⟩
      · rw [hres]
      · rw [hres, hres]
      · intro sid1 hsid1 now
        injection hsid1 with h1
        subst h1
        rw [hres]
        simp [isSessionValid]
    · by_cases hhas : mapHas m sid = true
      · have hres : logoutHandler cookieHeader m = (true, mapDelete m sid) := by
          simp [logoutHandler, hp, hsid, hhas]
        have hgone : mapGet (mapDelete m sid) sid = none := by
          rw [mapGet_mapDelete]
          simp
        refine ⟨?_, ?_, ?_⟩
        · rw [hres]
        · have hhas2 : ¬ mapHas (mapDelete m sid) sid = true := by
            simp [mapHas, hgone]
          rw [hres]
          simp [logoutHandler, hp, hhas2]
        · intro sid1 hsid1 now
          injection hsid1 with h1
          subst h1
          rw [hres, isSessionValid_of_none now sid (mapDelete m sid) hgone]
      · have hno : mapGet m sid = none := by
          cases hg : mapGet m sid with
          | none => rfl
          | some s => simp [mapHas, hg] at hhas
        have hres : logoutHandler cookieHeader m = (true, m) := by
          simp [logoutHandler, hp, hhas]
        refine ⟨?_, ?_, ?_⟩
        · rw [hres]
        · rw [hres, hres]
        · intro sid1 hsid1 now
          injection hsid1 with h1
          subst h1
          rw [hres, isSessionValid_of_none now sid m hno]

/-- C8 witness: logging out a present session and checking it again
answers false. -/
theorem C8_witness :
    (isSessionValid 0 "tok"
      (logoutHandler "admin_sid=tok"
        [("tok", { createdAt := 0, expires := 99 })]).2).1 = false :=
  (C8_logout_revoke "admin_sid=tok"
    [("tok", { createdAt := 0, expires := 99 })]).2.2 "tok" (by decide) 0

/-! ### C5, C10, C1 — POST /admin/change-password -/

/-- C5: every successful change-password call clears the session store:
afterwards no token validates at any time, forcing global re-login. -/
theorem C5_changePassword_clears_sessions (st : ServerState)
    (cur new : String) (h : (changePassword st cur new).1 = .ok) :
    (changePassword st cur new).2.sessions = [] ∧
    ∀ now t, (isSessionValid now t (changePassword st cur new).2.sessions).1
      = false := by
  have hs : (changePassword st cur new).2.sessions = [] := by
    by_cases h1 : cur = "" ∨ new = ""
    · simp [changePassword, h1] at h
    · by_cases h2 : cur ≠ getAdminPassword st.dbLookup st.envPassword
      · simp [changePassword, h1, h2] at h
      · by_cases h3 : new.length < 6
        · simp [changePassword, h1, h2, h3] at h
        · simp [changePassword, h1, h2, h3]
  refine ⟨hs, fun now t => ?_⟩
  rw [hs, isSessionValid_of_none now t [] rfl]

/-- C5 witness: a concrete successful change empties a non-empty
session store. -/
theorem C5_witness :
    (changePassword
      ⟨some "oldpass", none, false, false, false,
        [("a", { createdAt := 0, expires := 5 })]⟩
      "oldpass" "newpass123").2.sessions = [] :=
  (C5_changePassword_clears_sessions
    ⟨some "oldpass", none, false, false, false,
      [("a", { createdAt := 0, expires := 5 })]⟩
    "oldpass" "newpass123" (by decide)).1

/-- C10: a change-password call that fails any validation check
(missing fields, wrong current password, too-short new password)
returns with the whole server state unchanged: the process-wide
fallback, the persisted record, and the session store. -/
theorem C10_validation_failure_preserves_state (st : ServerState)
    (cur new : String) (h : (changePassword st cur new).1 ≠ .ok) :
    (changePassword st cur new).2 = st := by
  by_cases h1 : cur = "" ∨ new = ""
  · simp [changePassword, h1]
  · by_cases h2 : cur ≠ getAdminPassword st.dbLookup st.envPassword
    · simp [changePassword, h1, h2]
    · by_cases h3 : new.length < 6
      · simp [changePassword, h1, h2, h3]
      · exfalso
        exact h (by simp [changePassword, h1, h2, h3])

/-- C10 witness: a call with a missing current password leaves a
concrete state untouched. -/
theorem C10_witness :
    (changePassword ⟨some "p", none, false, false, false, []⟩ "" "x").2 =
      ⟨some "p", none, false, false, false, []⟩ :=
  C10_validation_failure_preserves_state
    ⟨some "p", none, false, false, false, []⟩ "" "x" (by decide)

/-- C1 counterexample: the claim requires that a failed datastore
persist make the operation report failure and leave the process-wide
fallback unchanged.  In a state where the write throws
(dbWriteFails = true), the handler nonetheless answers ok and has
already overwritten process.env.ADMIN_PANEL_PASSWORD. -/
theorem C1_counterexample :
    (changePassword
      ⟨some "oldpass", none, true, false, true,
        [("tok", { createdAt := 0, expires := 99 })]⟩
      "oldpass" "newpass123").1 = .ok ∧
    (changePassword
      ⟨some "oldpass", none, true, false, true,
        [("tok", { createdAt := 0, expires := 99 })]⟩
      "oldpass" "newpass123").2.envPassword = some "newpass123" :=
  ⟨rfl, rfl⟩

/-- C1 (amended): when the persist of the new password fails (the
connection is up but the upsert throws), the handler still reports
success; the process-wide fallback has already been unconditionally
overwritten with the new password, the persisted record is left
unchanged (the failure is only logged), and the sessions are cleared. -/
theorem C1_persist_failure_behavior (st : ServerState) (cur new : String)
    (h1 : ¬ (cur = "" ∨ new = ""))
    (h2 : cur = getAdminPassword st.dbLookup st.envPassword)
    (h3 : ¬ new.length < 6)
    (hc : st.dbConnected = true) (hw : st.dbWriteFails = true) :
    changePassword st cur new =
      (.ok, { st with envPassword := some new, sessions := [] }) := by
  have h2n : ¬ cur ≠ getAdminPassword st.dbLookup st.envPassword := by
    simp [h2]
  simp [changePassword, h1, h2n, h3, hc, hw]

/-- C1 amended-claim witness at a concrete failing persist. -/
theorem C1_witness :
    changePassword ⟨some "oldpass", none, true, false, true, []⟩
        "oldpass" "newpass123" =
      (.ok, ⟨some "newpass123", none, true, false, true, []⟩) :=
  C1_persist_failure_behavior
    ⟨some "oldpass", none, true, false, true, []⟩ "oldpass" "newpass123"
    (by decide) (by decide) (by decide) rfl rfl

/-! ### C6 — no resurrection of dead sessions -/

/-- A validity check never adds an entry (it at most evicts one). -/
theorem check_preserves_none (now : Nat) (id : Token) (m : SessionStore)
    (t : Token) (h : mapGet m t = none) :
    mapGet (isSessionValid now id m).2 t = none :=
  isSessionValid_preserves_none now id m t h

/-- The auth gate never adds an entry for an absent token: the sliding
refresh only re-sets a sid that was present (and a present sid cannot
be the absent token). -/
theorem requireAdminAuth_preserves_none (adminKey : String) (now : Nat)
    (key cookieHeader : String) (m : SessionStore) (t : Token)
    (h : mapGet m t = none) :
    mapGet (requireAdminAuth adminKey now key cookieHeader m).2 t = none := by
  by_cases hk : key ≠ "" ∧ key = adminKey
  · rw [requireAdminAuth_key adminKey now key cookieHeader m hk]
    exact h
  · cases hp : parseSid cookieHeader with
    | none =>
      rw [requireAdminAuth_noCookie adminKey now key cookieHeader m hk hp]
      exact h
    | some sid =>
      cases hb : (isSessionValid now sid m).1 with
      | false =>
        rw [requireAdminAuth_invalid adminKey now key cookieHeader m sid hk hp hb]
        exact isSessionValid_preserves_none now sid m t h
      | true =>
        obtain ⟨-, -, s, hg, -⟩ := isSessionValid_true now sid m hb
        rw [requireAdminAuth_valid adminKey now key cookieHeader m sid s hk hp hb hg]
        have hne : ¬ sid = t := by
          intro he
          rw [he, h] at hg
          cases hg
        rw [mapGet_mapSet, if_neg hne]
        exact h

/-- Logout never adds an entry. -/
theorem logoutHandler_preserves_none (cookieHeader : String)
    (m : SessionStore) (t : Token) (h : mapGet m t = none) :
    mapGet (logoutHandler cookieHeader m).2 t = none := by
  cases hp : parseSid cookieHeader with
  | none =>
    simp only [logoutHandler, hp]
    exact h
  | some sid =>
    by_cases hc : sid ≠ "" ∧ mapHas m sid
    · simp only [logoutHandler, hp, if_pos hc]
      rw [mapGet_mapDelete]
      split
      · rfl
      · exact h
    · simp only [logoutHandler, hp, if_neg hc]
      exact h

/-- No single session operation resurrects an absent token. -/
theorem stepOp_preserves_none (m : SessionStore) (op : SessionOp) (t : Token)
    (h : mapGet m t = none) : mapGet (stepOp m op) t = none := by
  cases op with
  | check now id => exact check_preserves_none now id m t h
  | auth ak now key ch => exact requireAdminAuth_preserves_none ak now key ch m t h
  | logout ch => exact logoutHandler_preserves_none ch m t h
  | clearAll => rfl

/-- C6: once a token is gone from the store (evicted lazily, revoked by
logout, or removed by the global clear), no sequence of validity
checks, auth-gate passes (with their touch), logouts, or clears brings
it back: it stays absent and never validates again.  Only
`createSession` — deliberately excluded from the operation set, since a
fresh login mints a fresh random token — inserts entries. -/
theorem C6_no_resurrection (t : Token) (m : SessionStore)
    (h : mapGet m t = none) (ops : List SessionOp) :
    mapGet (ops.foldl stepOp m) t = none ∧
    ∀ now, (isSessionValid now t (ops.foldl stepOp m)).1 = false := by
  have hfold : mapGet (ops.foldl stepOp m) t = none := by
    induction ops generalizing m with
    | nil => exact h
    | cons op rest ih =>
      exact ih (stepOp m op) (stepOp_preserves_none m op t h)
  refine ⟨hfold, fun now => ?_⟩
  rw [isSessionValid_of_none now t (ops.foldl stepOp m) hfold]

/-- C6 witness: a token revoked by a global clear stays invalid through
a later check and an auth attempt presenting the same token. -/
theorem C6_witness :
    (isSessionValid 7 "tok"
      ([SessionOp.clearAll, SessionOp.check 5 "tok",
        SessionOp.auth "k" 6 "" "admin_sid=tok"].foldl stepOp
          [("tok", { createdAt := 0, expires := 99 })])).1 = false :=
  (C6_no_resurrection "tok" []
    rfl
    [SessionOp.clearAll, SessionOp.check 5 "tok",
      SessionOp.auth "k" 6 "" "admin_sid=tok"]).2 7
